import Mathlib

/-!
Shallow embedding of the tssig-client-go signing client (client/client.go):
digest-length validation, request payload construction with URL-safe base64,
the bounded response guard, error classification, and the retry driver.
Bytes and character codes are Nat; Go int64 values that can be negative
(status code, Content-Length) are Int; durations are Nat nanoseconds.
-/

namespace Tssig

/-- Maximum size, in bytes, the client will accept (Go constant
MaxHttpDownloadSize in client.go). -/
def MaxHttpDownloadSize : Nat := 768

/-- Errors as the Go code distinguishes them: the client's own Retryable
string type, transport-level errors whose Timeout method reports true
(those matched by os.IsTimeout), and every other error value (fmt.Errorf
results, json errors, io errors such as io.EOF). -/
inductive GoError where
  | retryableErr (msg : String)
  | timeoutErr (msg : String)
  | genericErr (msg : String)
  deriving DecidableEq

/-- Models errors.As(err, &retryable): the error is the client's Retryable
error type. -/
def errorsAsRetryable : GoError → Bool
  | .retryableErr _ => true
  | _ => false

/-- Models os.IsTimeout(err): the error reports a timeout. -/
def osIsTimeout : GoError → Bool
  | .timeoutErr _ => true
  | _ => false

/-- Opaque deserialization target (tssig.SignedTimeStamp from the external
tssig-go package; its wire format is out of scope). -/
inductive SignedTimeStamp where
  | mk
  deriving DecidableEq, Inhabited

/-- The switch at the top of Sign: accepted digest lengths in bytes
(224, 256, 384 or 512 bits). -/
def validDigestLength (length : Nat) : Bool :=
  length == 224 / 8 || length == 256 / 8 || length == 384 / 8 || length == 512 / 8

/-- Message of the error returned for an invalid digest length. -/
def invalidDigestMsg (bits : Nat) : String :=
  "digest must be exactly 224, 256, 384, or 512 bits. " ++ toString bits ++ " bits found"

/-- Message of the Retryable error for status 429 / 5xx-and-above. -/
def retryableMsg (code : Int) : String :=
  "returned non-200 status code " ++ toString code ++ ". we can retry"

/-- Message of the permanent error for any other non-200 status. -/
def non200Msg (code : Int) : String :=
  "returned non-200 status code " ++ toString code

/-- Message of the error for a declared Content-Length above the ceiling. -/
def declaredTooLargeMsg (cl : Int) : String :=
  "the maximum allowed response size is " ++ toString MaxHttpDownloadSize ++
    " bytes. the returned response is " ++ toString cl ++ " bytes"

/-- Message of the error for more than MaxHttpDownloadSize bytes actually read. -/
def readTooLargeMsg : String :=
  "the maximum allowed response size is " ++ toString MaxHttpDownloadSize ++
    " bytes. the returned response is bigger"

/-- Index to character code in the URL-safe base64 alphabet
(encoding/base64 URLEncoding: A-Z, a-z, 0-9, -, _). -/
def b64Char (i : Nat) : Nat :=
  if i < 26 then 65 + i
  else if i < 52 then 97 + (i - 26)
  else if i < 62 then 48 + (i - 52)
  else if i = 62 then 45
  else 95

/-- Character code back to alphabet index; none outside the alphabet. -/
def b64DecodeChar (c : Nat) : Option Nat :=
  if 65 ≤ c ∧ c ≤ 90 then some (c - 65)
  else if 97 ≤ c ∧ c ≤ 122 then some (c - 97 + 26)
  else if 48 ≤ c ∧ c ≤ 57 then some (c - 48 + 52)
  else if c = 45 then some 62
  else if c = 95 then some 63
  else none

/-- base64.URLEncoding.EncodeToString on a byte list, producing the character
codes of the encoded string, with padding character 61 ('='). -/
def base64URLEncode : List Nat → List Nat
  | [] => []
  | [a] => [b64Char (a / 4), b64Char (a % 4 * 16), 61, 61]
  | [a, b] => [b64Char (a / 4), b64Char (a % 4 * 16 + b / 16), b64Char (b % 16 * 4), 61]
  | a :: b :: c :: rest =>
      b64Char (a / 4) :: b64Char (a % 4 * 16 + b / 16) ::
        b64Char (b % 16 * 4 + c / 64) :: b64Char (c % 64) :: base64URLEncode rest

/-- base64.URLEncoding.DecodeString (default non-strict mode): four-character
groups, padding allowed only in the final group, input length a multiple of 4. -/
def base64URLDecode : List Nat → Option (List Nat)
  | [] => some []
  | c1 :: c2 :: c3 :: c4 :: rest =>
    match b64DecodeChar c1, b64DecodeChar c2 with
    | some s1, some s2 =>
      if c3 = 61 then
        if c4 = 61 ∧ rest = [] then some [s1 * 4 + s2 / 16] else none
      else
        match b64DecodeChar c3 with
        | some s3 =>
          if c4 = 61 then
            if rest = [] then some [s1 * 4 + s2 / 16, s2 % 16 * 16 + s3 / 4] else none
          else
            match b64DecodeChar c4, base64URLDecode rest with
            | some s4, some bs =>
                some ((s1 * 4 + s2 / 16) :: (s2 % 16 * 16 + s3 / 4) :: (s3 % 4 * 64 + s4) :: bs)
            | _, _ => none
        | none => none
    | _, _ => none
  | _ => none

/-- The request format (Go struct payload with the single json field digest);
the field holds the character codes of the string. -/
structure payload where
  Digest : List Nat
  deriving DecidableEq

/-- The request payload sign builds: the URL-safe base64 encoding of the
digest in the Digest field. -/
def requestPayload (digest : List Nat) : payload :=
  { Digest := base64URLEncode digest }

/-- Lower-case hexadecimal digit, for json string escapes. -/
def hexDigit (n : Nat) : Nat :=
  if n < 10 then 48 + n else 97 + (n - 10)

/-- encoding/json escaping of one string byte: quote and backslash, newline,
carriage return and tab get two-character escapes; other control characters
and the HTML-escaped characters < > & become a six-character unicode escape;
everything else passes through. -/
def jsonEscapeChar (c : Nat) : List Nat :=
  if c = 34 then [92, 34]
  else if c = 92 then [92, 92]
  else if c = 10 then [92, 110]
  else if c = 13 then [92, 114]
  else if c = 9 then [92, 116]
  else if c < 32 ∨ c = 60 ∨ c = 62 ∨ c = 38 then
    [92, 117, 48, 48, hexDigit (c / 16), hexDigit (c % 16)]
  else [c]

/-- json.Marshal of the payload struct: the bytes of the JSON object with the
single string field digest. encoding/json returns an error only for
unsupported values (channels, functions, cyclic data, non-finite floats); a
struct holding one string field always marshals successfully, so the function
is total, with the Except return type mirroring the Go signature. -/
def jsonMarshal (p : payload) : Except GoError (List Nat) :=
  .ok ([123, 34, 100, 105, 103, 101, 115, 116, 34, 58, 34] ++
    (p.Digest.map jsonEscapeChar).flatten ++ [34, 125])

/-- The parts of http.Response that sign inspects: the status code, the
declared Content-Length (-1 when unknown), the byte stream the server sends,
and the error the single Body.Read call reports (io.EOF on an empty body; the
http client's per-request timeout can also fire here while the body is being
read, yielding an error that os.IsTimeout matches). -/
structure HttpResponse where
  statusCode : Int
  contentLength : Int
  body : List Nat
  readErr : Option GoError
  deriving DecidableEq

/-- Outcome of c.HttpClient.Do: a transport error or a response. -/
inductive TransportResult where
  | transportErr (e : GoError)
  | response (resp : HttpResponse)
  deriving DecidableEq

/-- Decidable equality for attempt results, so that concrete runs can be
checked by evaluation. -/
instance {e a : Type} [DecidableEq e] [DecidableEq a] : DecidableEq (Except e a) := fun x y =>
  match x, y with
  | .ok v, .ok w =>
    if h : v = w then isTrue (h ▸ rfl) else isFalse (fun hc => h (Except.ok.inj hc))
  | .error v, .error w =>
    if h : v = w then isTrue (h ▸ rfl) else isFalse (fun hc => h (Except.error.inj hc))
  | .ok _, .error _ => isFalse (fun hc => Except.noConfusion hc)
  | .error _, .ok _ => isFalse (fun hc => Except.noConfusion hc)

/-- Number of bytes the single Body.Read into the buffer of
MaxHttpDownloadSize + 1 bytes returns: all available bytes, capped by the
buffer size. -/
def readN (resp : HttpResponse) : Nat :=
  min resp.body.length (MaxHttpDownloadSize + 1)

/-- sign: one HTTP attempt (client.go, method sign). unmarshal models
json.Unmarshal into the external SignedTimeStamp structure; tr models the
outcome of the transport call for this attempt. -/
def sign (unmarshal : List Nat → Except GoError SignedTimeStamp)
    (digest : List Nat) (tr : TransportResult) : Except GoError SignedTimeStamp :=
  match jsonMarshal (requestPayload digest) with
  | .error e => .error e
  | .ok _jsonPayload =>
    match tr with
    | .transportErr e => .error e
    | .response resp =>
      if resp.statusCode = 429 ∨ 500 ≤ resp.statusCode then
        .error (.retryableErr (retryableMsg resp.statusCode))
      else if resp.statusCode ≠ 200 then
        .error (.genericErr (non200Msg resp.statusCode))
      else if (MaxHttpDownloadSize : Int) < resp.contentLength then
        .error (.genericErr (declaredTooLargeMsg resp.contentLength))
      else
        match resp.readErr with
        | some e => .error e
        | none =>
          if MaxHttpDownloadSize < readN resp then
            .error (.genericErr readTooLargeMsg)
          else
            match unmarshal (resp.body.take (readN resp)) with
            | .error e => .error e
            | .ok sts => .ok sts

/-- An attempt error after the classification done in Sign's closure:
passed through as retryable, or wrapped by backoff.Permanent. -/
inductive ClassifiedError where
  | retryable (e : GoError)
  | permanent (e : GoError)
  deriving DecidableEq

/-- The closure Sign hands to the retry driver: an error that is the
Retryable type, or that os.IsTimeout matches, is returned as-is (retryable);
every other error is wrapped in backoff.Permanent. -/
def classifyAttempt (r : Except GoError SignedTimeStamp) :
    Except ClassifiedError SignedTimeStamp :=
  match r with
  | .ok sts => .ok sts
  | .error e =>
    if errorsAsRetryable e || osIsTimeout e then .error (.retryable e)
    else .error (.permanent e)

/-- Modelled from the spec: the retry driver backoff.RetryNotifyWithData of
the external library github.com/cenkalti/backoff/v4, run with an exponential
back-off whose MaxElapsedTime is the client's TotalTimeout. fuel is the
number of back-off sleeps the elapsed-time budget still permits and i the
attempt index. Success returns the value; a permanent error is unwrapped and
returned immediately; a retryable error is retried until the budget is
exhausted, at which point the last retryable error is returned as the
terminal failure (spec: "on exhaustion of the total timeout, return the last
Retryable error as a terminal failure"). -/
def RetryNotifyWithData (fuel : Nat)
    (op : Nat → Except ClassifiedError SignedTimeStamp) (i : Nat) :
    Except GoError SignedTimeStamp :=
  match op i with
  | .ok sts => .ok sts
  | .error (.permanent e) => .error e
  | .error (.retryable e) =>
    match fuel with
    | 0 => .error e
    | fuel' + 1 => RetryNotifyWithData fuel' op (i + 1)

/-- Sign (client.go, method Sign): validate the digest length, then drive
sign through the retry loop. transport gives the transport outcome of attempt
i; fuel abstracts how many retries the exponential back-off schedule permits
before TotalTimeout elapses. -/
def Sign (unmarshal : List Nat → Except GoError SignedTimeStamp) (fuel : Nat)
    (transport : Nat → TransportResult) (digest : List Nat) :
    Except GoError SignedTimeStamp :=
  if validDigestLength digest.length then
    RetryNotifyWithData fuel
      (fun i => classifyAttempt (sign unmarshal digest (transport i))) 0
  else
    .error (.genericErr (invalidDigestMsg (digest.length * 8)))

/-- One second of time.Duration, in nanoseconds. -/
def timeSecond : Nat := 1000000000

/-- The slice of the Go http.Client that the configuration surface names:
the per-request timeout. -/
structure GoHttpClient where
  Timeout : Nat

/-- The Client struct: endpoint, total retry timeout, optional retry
observer, and the HTTP client carrying the per-request timeout. -/
structure Client where
  Endpoint : String
  TotalTimeout : Nat
  Notify : Option (GoError → Nat → Unit)
  HttpClient : GoHttpClient

/-- NewClient: a new Client with sensible defaults (client.go NewClient);
the Notify field is left at its zero value. -/
def NewClient (endpoint : String) : Client :=
  { Endpoint := endpoint
    TotalTimeout := 60 * timeSecond
    Notify := none
    HttpClient := { Timeout := 5 * timeSecond } }

/-! Helper lemmas about the base64 alphabet. -/

theorem b64DecodeChar_b64Char : ∀ i < 64, b64DecodeChar (b64Char i) = some i := by
  decide

theorem b64Char_ne_pad : ∀ i < 64, b64Char i ≠ 61 := by
  decide

/-- Decoding inverts encoding on byte lists. -/
theorem base64URLDecode_encode :
    ∀ bs : List Nat, (∀ b ∈ bs, b < 256) →
      base64URLDecode (base64URLEncode bs) = some bs := by
  intro bs
  induction bs using base64URLEncode.induct with
  | case1 =>
    intro _
    rfl
  | case2 a =>
    intro h
    have ha : a < 256 := h a (by simp)
    have e1 := b64DecodeChar_b64Char (a / 4) (by omega)
    have e2 := b64DecodeChar_b64Char (a % 4 * 16) (by omega)
    simp [base64URLEncode, base64URLDecode, e1, e2]
    omega
  | case3 a b =>
    intro h
    have ha : a < 256 := h a (by simp)
    have hb : b < 256 := h b (by simp)
    have e1 := b64DecodeChar_b64Char (a / 4) (by omega)
    have e2 := b64DecodeChar_b64Char (a % 4 * 16 + b / 16) (by omega)
    have e3 := b64DecodeChar_b64Char (b % 16 * 4) (by omega)
    have n3 := b64Char_ne_pad (b % 16 * 4) (by omega)
    simp [base64URLEncode, base64URLDecode, e1, e2, e3, n3]
    omega
  | case4 a b c rest ih =>
    intro h
    have ha : a < 256 := h a (by simp)
    have hb : b < 256 := h b (by simp)
    have hc : c < 256 := h c (by simp)
    have e1 := b64DecodeChar_b64Char (a / 4) (by omega)
    have e2 := b64DecodeChar_b64Char (a % 4 * 16 + b / 16) (by omega)
    have e3 := b64DecodeChar_b64Char (b % 16 * 4 + c / 64) (by omega)
    have e4 := b64DecodeChar_b64Char (c % 64) (by omega)
    have n3 := b64Char_ne_pad (b % 16 * 4 + c / 64) (by omega)
    have n4 := b64Char_ne_pad (c % 64) (by omega)
    have hrest : base64URLDecode (base64URLEncode rest) = some rest :=
      ih (fun x hx => h x (by simp [hx]))
    simp [base64URLEncode, base64URLDecode, e1, e2, e3, e4, n3, n4, hrest]
    omega

/-! Shape lemmas for the retry driver. -/

theorem retry_ok (fuel i : Nat) (op : Nat → Except ClassifiedError SignedTimeStamp)
    (sts : SignedTimeStamp) (hop : op i = .ok sts) :
    RetryNotifyWithData fuel op i = .ok sts := by
  rw [RetryNotifyWithData.eq_def, hop]

theorem retry_permanent (fuel i : Nat)
    (op : Nat → Except ClassifiedError SignedTimeStamp) (e : GoError)
    (hop : op i = .error (.permanent e)) :
    RetryNotifyWithData fuel op i = .error e := by
  rw [RetryNotifyWithData.eq_def, hop]

theorem retry_exhausted (i : Nat) (op : Nat → Except ClassifiedError SignedTimeStamp)
    (e : GoError) (hop : op i = .error (.retryable e)) :
    RetryNotifyWithData 0 op i = .error e := by
  rw [RetryNotifyWithData.eq_def, hop]

theorem retry_step (fuel i : Nat) (op : Nat → Except ClassifiedError SignedTimeStamp)
    (e : GoError) (hop : op i = .error (.retryable e)) :
    RetryNotifyWithData (fuel + 1) op i = RetryNotifyWithData fuel op (i + 1) := by
  rw [RetryNotifyWithData.eq_def, hop]

/-- When every attempt inside the budget fails retryably, the driver returns
the last retryable error. -/
theorem retry_all_retryable :
    ∀ (fuel i : Nat) (op : Nat → Except ClassifiedError SignedTimeStamp)
      (errs : Nat → GoError),
      (∀ j, i ≤ j → j ≤ i + fuel → op j = .error (.retryable (errs j))) →
      RetryNotifyWithData fuel op i = .error (errs (i + fuel)) := by
  intro fuel
  induction fuel with
  | zero =>
    intro i op errs h
    simpa using retry_exhausted i op (errs i) (h i le_rfl (by omega))
  | succ n ih =>
    intro i op errs h
    rw [retry_step n i op (errs i) (h i le_rfl (by omega))]
    rw [show i + (n + 1) = i + 1 + n from by omega]
    exact ih (i + 1) op errs (fun j h1 h2 => h j (by omega) (by omega))

/-! Shape lemmas for one attempt and its classification. -/

theorem sign_transportErr (um : List Nat → Except GoError SignedTimeStamp)
    (digest : List Nat) (e : GoError) :
    sign um digest (.transportErr e) = .error e := rfl

theorem sign_retryable_status (um : List Nat → Except GoError SignedTimeStamp)
    (digest : List Nat) (resp : HttpResponse)
    (h : resp.statusCode = 429 ∨ 500 ≤ resp.statusCode) :
    sign um digest (.response resp) =
      .error (.retryableErr (retryableMsg resp.statusCode)) := by
  simp only [sign, jsonMarshal]
  rw [if_pos h]

theorem sign_non200 (um : List Nat → Except GoError SignedTimeStamp)
    (digest : List Nat) (resp : HttpResponse)
    (h1 : ¬(resp.statusCode = 429 ∨ 500 ≤ resp.statusCode))
    (h2 : resp.statusCode ≠ 200) :
    sign um digest (.response resp) =
      .error (.genericErr (non200Msg resp.statusCode)) := by
  simp only [sign, jsonMarshal]
  rw [if_neg h1, if_pos h2]

theorem sign_declared_too_large (um : List Nat → Except GoError SignedTimeStamp)
    (digest : List Nat) (resp : HttpResponse)
    (h200 : resp.statusCode = 200)
    (hcl : (MaxHttpDownloadSize : Int) < resp.contentLength) :
    sign um digest (.response resp) =
      .error (.genericErr (declaredTooLargeMsg resp.contentLength)) := by
  simp only [sign, jsonMarshal]
  rw [if_neg (by omega : ¬(resp.statusCode = 429 ∨ 500 ≤ resp.statusCode)),
    if_neg (by omega : ¬resp.statusCode ≠ 200), if_pos hcl]

theorem sign_read_err (um : List Nat → Except GoError SignedTimeStamp)
    (digest : List Nat) (resp : HttpResponse) (e : GoError)
    (h200 : resp.statusCode = 200)
    (hcl : resp.contentLength ≤ (MaxHttpDownloadSize : Int))
    (hre : resp.readErr = some e) :
    sign um digest (.response resp) = .error e := by
  simp only [sign, jsonMarshal]
  rw [if_neg (by omega : ¬(resp.statusCode = 429 ∨ 500 ≤ resp.statusCode)),
    if_neg (by omega : ¬resp.statusCode ≠ 200),
    if_neg (by omega : ¬((MaxHttpDownloadSize : Int) < resp.contentLength)), hre]

theorem sign_read_too_large (um : List Nat → Except GoError SignedTimeStamp)
    (digest : List Nat) (resp : HttpResponse)
    (h200 : resp.statusCode = 200)
    (hcl : resp.contentLength ≤ (MaxHttpDownloadSize : Int))
    (hre : resp.readErr = none)
    (hlen : MaxHttpDownloadSize < resp.body.length) :
    sign um digest (.response resp) = .error (.genericErr readTooLargeMsg) := by
  simp only [sign, jsonMarshal]
  rw [if_neg (by omega : ¬(resp.statusCode = 429 ∨ 500 ≤ resp.statusCode)),
    if_neg (by omega : ¬resp.statusCode ≠ 200),
    if_neg (by omega : ¬((MaxHttpDownloadSize : Int) < resp.contentLength)), hre]
  rw [if_pos (show MaxHttpDownloadSize < readN resp by
    simp only [readN, MaxHttpDownloadSize] at hlen ⊢
    omega)]

theorem classifyAttempt_retryableErr (m : String) :
    classifyAttempt (.error (.retryableErr m)) =
      .error (.retryable (.retryableErr m)) := rfl

theorem classifyAttempt_timeoutErr (m : String) :
    classifyAttempt (.error (.timeoutErr m)) =
      .error (.retryable (.timeoutErr m)) := rfl

theorem classifyAttempt_genericErr (m : String) :
    classifyAttempt (.error (.genericErr m)) =
      .error (.permanent (.genericErr m)) := rfl

/-! Shape lemmas for Sign. -/

theorem Sign_valid (um : List Nat → Except GoError SignedTimeStamp) (fuel : Nat)
    (transport : Nat → TransportResult) (digest : List Nat)
    (h : validDigestLength digest.length = true) :
    Sign um fuel transport digest =
      RetryNotifyWithData fuel
        (fun i => classifyAttempt (sign um digest (transport i))) 0 := by
  simp only [Sign, h, if_true]

theorem Sign_invalid (um : List Nat → Except GoError SignedTimeStamp) (fuel : Nat)
    (transport : Nat → TransportResult) (digest : List Nat)
    (h : validDigestLength digest.length = false) :
    Sign um fuel transport digest =
      .error (.genericErr (invalidDigestMsg (digest.length * 8))) := by
  simp only [Sign, h, Bool.false_eq_true, if_false]

/-- C1 counterexample: a response with status code 600 — not 429, not a 5xx
status (500..599), and not 200, hence an "other non-200 status" that the
claim requires to be classified Permanent — is in fact classified Retryable
by the code, whose guard is statusCode = 429 or statusCode >= 500. -/
theorem c1_counterexample :
    classifyAttempt (sign (fun _ => .ok .mk) []
        (.response { statusCode := 600, contentLength := 0, body := [], readErr := none })) =
      .error (.retryable (.retryableErr (retryableMsg 600))) ∧
    classifyAttempt (sign (fun _ => .ok .mk) []
        (.response { statusCode := 600, contentLength := 0, body := [], readErr := none })) ≠
      .error (.permanent (.retryableErr (retryableMsg 600))) ∧
    ¬((600 : Int) = 429 ∨ ((500 : Int) ≤ 600 ∧ (600 : Int) ≤ 599)) ∧
    (600 : Int) ≠ 200 :=
  ⟨rfl, by decide, by decide, by decide⟩

/-- C1 (amended): for every attempt whose HTTP response has status 429 or any
status at least 500, the outcome is classified Retryable, with the explicit
signal "returned non-200 status code N. we can retry", and the retry loop
continues under backoff; for every other non-200 status (a non-200 status
below 500 other than 429) the outcome is classified Permanent and the retry
driver returns that error immediately, whatever budget remains. -/
theorem c1_status_classification
    (unmarshal : List Nat → Except GoError SignedTimeStamp)
    (digest : List Nat) (resp : HttpResponse) :
    (resp.statusCode = 429 ∨ 500 ≤ resp.statusCode →
      sign unmarshal digest (.response resp) =
        .error (.retryableErr (retryableMsg resp.statusCode)) ∧
      classifyAttempt (sign unmarshal digest (.response resp)) =
        .error (.retryable (.retryableErr (retryableMsg resp.statusCode))) ∧
      ∀ (fuel i : Nat) (op : Nat → Except ClassifiedError SignedTimeStamp),
        op i = classifyAttempt (sign unmarshal digest (.response resp)) →
        RetryNotifyWithData (fuel + 1) op i = RetryNotifyWithData fuel op (i + 1)) ∧
    (resp.statusCode ≠ 429 → resp.statusCode < 500 → resp.statusCode ≠ 200 →
      sign unmarshal digest (.response resp) =
        .error (.genericErr (non200Msg resp.statusCode)) ∧
      classifyAttempt (sign unmarshal digest (.response resp)) =
        .error (.permanent (.genericErr (non200Msg resp.statusCode))) ∧
      ∀ (fuel i : Nat) (op : Nat → Except ClassifiedError SignedTimeStamp),
        op i = classifyAttempt (sign unmarshal digest (.response resp)) →
        RetryNotifyWithData fuel op i =
          .error (.genericErr (non200Msg resp.statusCode))) := by
  constructor
  · intro hs
    have hsign := sign_retryable_status unmarshal digest resp hs
    have hcls : classifyAttempt (sign unmarshal digest (.response resp)) =
        .error (.retryable (.retryableErr (retryableMsg resp.statusCode))) := by
      rw [hsign]
      exact classifyAttempt_retryableErr _
    refine ⟨hsign, hcls, ?_⟩
    intro fuel i op hop
    exact retry_step fuel i op _ (hop.trans hcls)
  · intro h1 h2 h3
    have hsign := sign_non200 unmarshal digest resp (by omega) h3
    have hcls : classifyAttempt (sign unmarshal digest (.response resp)) =
        .error (.permanent (.genericErr (non200Msg resp.statusCode))) := by
      rw [hsign]
      exact classifyAttempt_genericErr _
    refine ⟨hsign, hcls, ?_⟩
    intro fuel i op hop
    exact retry_permanent fuel i op _ (hop.trans hcls)

/-- C1 witness: status 500 yields the Retryable error with its signal; status
404 yields the permanent non-200 error. -/
theorem c1_witness :
    sign (fun _ => .ok .mk) (List.replicate 32 0)
        (.response { statusCode := 500, contentLength := 0, body := [], readErr := none }) =
      .error (.retryableErr (retryableMsg 500)) ∧
    sign (fun _ => .ok .mk) (List.replicate 32 0)
        (.response { statusCode := 404, contentLength := 0, body := [], readErr := none }) =
      .error (.genericErr (non200Msg 404)) :=
  ⟨((c1_status_classification (fun _ => .ok .mk) (List.replicate 32 0)
      { statusCode := 500, contentLength := 0, body := [], readErr := none }).1
      (Or.inr (by decide))).1,
    ((c1_status_classification (fun _ => .ok .mk) (List.replicate 32 0)
      { statusCode := 404, contentLength := 0, body := [], readErr := none }).2
      (by decide) (by decide) (by decide)).1⟩

/-- C3: a digest whose length in bytes is not 28, 32, 48 or 64 fails
immediately with the non-retryable validation error, with a result that does
not depend on the transport or on the retry budget (zero network requests,
the retry loop is never entered); a digest whose length is in the set passes
the validation check and Sign proceeds into the retry loop. -/
theorem c3_digest_validation (um : List Nat → Except GoError SignedTimeStamp)
    (fuel : Nat) (transport : Nat → TransportResult) (digest : List Nat) :
    (¬(digest.length = 28 ∨ digest.length = 32 ∨ digest.length = 48 ∨
        digest.length = 64) →
      Sign um fuel transport digest =
        .error (.genericErr (invalidDigestMsg (digest.length * 8))) ∧
      ∀ (fuel2 : Nat) (transport2 : Nat → TransportResult),
        Sign um fuel2 transport2 digest = Sign um fuel transport digest) ∧
    (digest.length = 28 ∨ digest.length = 32 ∨ digest.length = 48 ∨
        digest.length = 64 →
      validDigestLength digest.length = true ∧
      Sign um fuel transport digest =
        RetryNotifyWithData fuel
          (fun i => classifyAttempt (sign um digest (transport i))) 0) := by
  constructor
  · intro h
    have hv : validDigestLength digest.length = false := by
      unfold validDigestLength
      simp only [Bool.or_eq_false_iff, beq_eq_false_iff_ne, ne_eq]
      omega
    have hs := Sign_invalid um fuel transport digest hv
    exact ⟨hs, fun fuel2 transport2 =>
      (Sign_invalid um fuel2 transport2 digest hv).trans hs.symm⟩
  · intro h
    have hv : validDigestLength digest.length = true := by
      unfold validDigestLength
      simp only [Bool.or_eq_true, beq_iff_eq]
      omega
    exact ⟨hv, Sign_valid um fuel transport digest hv⟩

/-- C3 witness: a 1-byte digest is rejected with the validation error for
every transport; a 32-byte digest passes validation. -/
theorem c3_witness :
    Sign (fun _ => .ok .mk) 3 (fun _ => .transportErr (.genericErr "unused")) [0] =
      .error (.genericErr (invalidDigestMsg 8)) ∧
    validDigestLength (List.replicate 32 0).length = true :=
  ⟨((c3_digest_validation (fun _ => .ok .mk) 3
      (fun _ => .transportErr (.genericErr "unused")) [0]).1 (by decide)).1,
    ((c3_digest_validation (fun _ => .ok .mk) 3
      (fun _ => .transportErr (.genericErr "unused")) (List.replicate 32 0)).2
      (by simp)).1⟩

/-- C4: a 200 response whose declared Content-Length exceeds
MaxHttpDownloadSize (768) fails with the Permanent declared-size error, and
the outcome does not depend on the body stream or on the read result — the
body is never read. -/
theorem c4_declared_size_guard (um : List Nat → Except GoError SignedTimeStamp)
    (digest : List Nat) (resp : HttpResponse)
    (h200 : resp.statusCode = 200)
    (hcl : (MaxHttpDownloadSize : Int) < resp.contentLength) :
    sign um digest (.response resp) =
      .error (.genericErr (declaredTooLargeMsg resp.contentLength)) ∧
    classifyAttempt (sign um digest (.response resp)) =
      .error (.permanent (.genericErr (declaredTooLargeMsg resp.contentLength))) ∧
    ∀ (body2 : List Nat) (readErr2 : Option GoError),
      sign um digest (.response { resp with body := body2, readErr := readErr2 }) =
        sign um digest (.response resp) := by
  have hs := sign_declared_too_large um digest resp h200 hcl
  refine ⟨hs, by rw [hs]; exact classifyAttempt_genericErr _, ?_⟩
  intro body2 readErr2
  rw [hs, sign_declared_too_large um digest
    { resp with body := body2, readErr := readErr2 } h200 hcl]

/-- C4 witness: declared Content-Length 800 against the 768-byte ceiling. -/
theorem c4_witness :
    sign (fun _ => .ok .mk) (List.replicate 32 0)
        (.response { statusCode := 200, contentLength := 800, body := [], readErr := none }) =
      .error (.genericErr (declaredTooLargeMsg 800)) :=
  (c4_declared_size_guard (fun _ => .ok .mk) (List.replicate 32 0)
    { statusCode := 200, contentLength := 800, body := [], readErr := none }
    rfl (by decide)).1

/-- C5: a 200 response within the declared-length guard whose body, read into
the buffer of MaxHttpDownloadSize + 1 = 769 bytes, yields strictly more than
768 bytes fails with the Permanent oversize error; and the single read never
buffers more than 769 bytes, for any response. -/
theorem c5_read_size_guard (um : List Nat → Except GoError SignedTimeStamp)
    (digest : List Nat) (resp : HttpResponse)
    (h200 : resp.statusCode = 200)
    (hcl : resp.contentLength ≤ (MaxHttpDownloadSize : Int))
    (hre : resp.readErr = none)
    (hlen : MaxHttpDownloadSize < resp.body.length) :
    sign um digest (.response resp) = .error (.genericErr readTooLargeMsg) ∧
    classifyAttempt (sign um digest (.response resp)) =
      .error (.permanent (.genericErr readTooLargeMsg)) ∧
    ∀ r : HttpResponse, readN r ≤ MaxHttpDownloadSize + 1 := by
  have hs := sign_read_too_large um digest resp h200 hcl hre hlen
  refine ⟨hs, by rw [hs]; exact classifyAttempt_genericErr _, ?_⟩
  intro r
  exact Nat.min_le_right _ _

/-- C5 witness: a 769-byte body with no declared length (Content-Length -1)
is rejected as oversized. -/
theorem c5_witness :
    sign (fun _ => .ok .mk) (List.replicate 32 0)
        (.response { statusCode := 200, contentLength := -1, body := List.replicate 769 0, readErr := none }) =
      .error (.genericErr readTooLargeMsg) :=
  (c5_read_size_guard (fun _ => .ok .mk) (List.replicate 32 0)
    { statusCode := 200, contentLength := -1, body := List.replicate 769 0, readErr := none }
    rfl (by decide) rfl (by rw [List.length_replicate]; decide)).1

/-- C6: an attempt whose transport call fails with a timeout error (one that
os.IsTimeout matches) returns that error and is classified Retryable, not
Permanent, so the retry loop continues with the budget decremented. -/
theorem c6_transport_timeout (um : List Nat → Except GoError SignedTimeStamp)
    (digest : List Nat) (e : GoError) (ht : osIsTimeout e = true) :
    sign um digest (.transportErr e) = .error e ∧
    classifyAttempt (sign um digest (.transportErr e)) = .error (.retryable e) ∧
    (∀ m : String, classifyAttempt (sign um digest (.transportErr e)) ≠
      .error (.permanent (.timeoutErr m))) ∧
    ∀ (fuel i : Nat) (op : Nat → Except ClassifiedError SignedTimeStamp),
      op i = classifyAttempt (sign um digest (.transportErr e)) →
      RetryNotifyWithData (fuel + 1) op i = RetryNotifyWithData fuel op (i + 1) := by
  have hs : sign um digest (.transportErr e) = .error e := rfl
  have hcls : classifyAttempt (sign um digest (.transportErr e)) =
      .error (.retryable e) := by
    rw [hs]
    simp [classifyAttempt, ht]
  refine ⟨hs, hcls, ?_, ?_⟩
  · intro m hcontra
    rw [hcls] at hcontra
    exact absurd hcontra (by simp)
  · intro fuel i op hop
    exact retry_step fuel i op e (hop.trans hcls)

/-- C6 witness: a concrete transport timeout is classified Retryable. -/
theorem c6_witness :
    classifyAttempt (sign (fun _ => .ok .mk) (List.replicate 32 0)
        (.transportErr (.timeoutErr "net timeout"))) =
      .error (.retryable (.timeoutErr "net timeout")) :=
  (c6_transport_timeout (fun _ => .ok .mk) (List.replicate 32 0)
    (.timeoutErr "net timeout") rfl).2.1

/-- C2: when the retry budget elapses while every observed attempt failure
was Retryable, Sign returns the last Retryable error as the terminal failure
(the spec's TimeoutExhaustedError), and in particular never a nil-result /
nil-error success. -/
theorem c2_exhaustion_terminal (um : List Nat → Except GoError SignedTimeStamp)
    (fuel : Nat) (transport : Nat → TransportResult) (digest : List Nat)
    (errs : Nat → GoError)
    (hvalid : validDigestLength digest.length = true)
    (h : ∀ i, i ≤ fuel → classifyAttempt (sign um digest (transport i)) =
      .error (.retryable (errs i))) :
    Sign um fuel transport digest = .error (errs fuel) ∧
    ∀ sts : SignedTimeStamp, Sign um fuel transport digest ≠ .ok sts := by
  have hloop := retry_all_retryable fuel 0
    (fun i => classifyAttempt (sign um digest (transport i))) errs
    (fun j h1 h2 => h j (by omega))
  simp only [Nat.zero_add] at hloop
  rw [Sign_valid um fuel transport digest hvalid]
  refine ⟨hloop, ?_⟩
  intro sts hcontra
  rw [hloop] at hcontra
  exact Except.noConfusion hcontra

/-- C2 witness: a budget of one retry against a server that always answers
500 ends with the last Retryable error as the terminal failure. -/
theorem c2_witness :
    Sign (fun _ => .ok .mk) 1
      (fun _ => .response { statusCode := 500, contentLength := 0, body := [], readErr := none })
      (List.replicate 32 0) =
      .error (.retryableErr (retryableMsg 500)) :=
  (c2_exhaustion_terminal (fun _ => .ok .mk) 1
    (fun _ => .response { statusCode := 500, contentLength := 0, body := [], readErr := none })
    (List.replicate 32 0) (fun _ => .retryableErr (retryableMsg 500))
    (by decide) (fun i _ => rfl)).1

/-- C7: for every digest of valid length, the digest field placed in the
JSON request payload is the URL-safe base64 encoding of the digest, and
decoding that field yields back exactly the original digest bytes. -/
theorem c7_base64_roundtrip (digest : List Nat)
    (hbytes : ∀ b ∈ digest, b < 256)
    (hlen : digest.length = 28 ∨ digest.length = 32 ∨ digest.length = 48 ∨
      digest.length = 64) :
    (requestPayload digest).Digest = base64URLEncode digest ∧
    base64URLDecode ((requestPayload digest).Digest) = some digest :=
  ⟨rfl, base64URLDecode_encode digest hbytes⟩

/-- C7 witness: a concrete 32-byte digest round-trips through the payload's
base64 field. -/
theorem c7_witness :
    base64URLDecode ((requestPayload (List.range 32)).Digest) =
      some (List.range 32) :=
  (c7_base64_roundtrip (List.range 32) (by decide) (by decide)).2

/-- C8: the default constructor yields a total retry timeout of exactly 60
seconds, a per-request timeout of exactly 5 seconds held in its own field
independent of the total budget, and a response size ceiling of 768 bytes. -/
theorem c8_defaults (endpoint : String) :
    (NewClient endpoint).TotalTimeout = 60 * timeSecond ∧
    (NewClient endpoint).HttpClient.Timeout = 5 * timeSecond ∧
    MaxHttpDownloadSize = 768 ∧
    (NewClient endpoint).Endpoint = endpoint ∧
    (NewClient endpoint).Notify = none :=
  ⟨rfl, rfl, rfl, rfl, rfl⟩

/-- C9 counterexample: a 200 response whose single body read fails with a
timeout error — which happens when the http client's per-request timeout
fires while the body is being read — is classified Retryable, not Permanent
as the claim requires of every non-nil read error. -/
theorem c9_counterexample :
    sign (fun _ => .ok .mk) (List.replicate 32 0)
        (.response { statusCode := 200, contentLength := -1, body := [72], readErr := some (.timeoutErr "Client.Timeout exceeded while reading body") }) =
      .error (.timeoutErr "Client.Timeout exceeded while reading body") ∧
    classifyAttempt (sign (fun _ => .ok .mk) (List.replicate 32 0)
        (.response { statusCode := 200, contentLength := -1, body := [72], readErr := some (.timeoutErr "Client.Timeout exceeded while reading body") })) =
      .error (.retryable (.timeoutErr "Client.Timeout exceeded while reading body")) ∧
    classifyAttempt (sign (fun _ => .ok .mk) (List.replicate 32 0)
        (.response { statusCode := 200, contentLength := -1, body := [72], readErr := some (.timeoutErr "Client.Timeout exceeded while reading body") })) ≠
      .error (.permanent (.timeoutErr "Client.Timeout exceeded while reading body")) :=
  ⟨rfl, rfl, by decide⟩

/-- C9 (amended): for every HTTP 200 response within the declared-length
guard whose single body read returns a non-nil error — including a response
with an empty body, where the read reports end-of-stream — the attempt fails
with that read error, even when the bytes already read form a complete valid
payload within the size ceiling; the error is classified Permanent unless it
is a timeout error (or a Retryable-typed error), which is classified
Retryable instead. -/
theorem c9_read_error (um : List Nat → Except GoError SignedTimeStamp)
    (digest : List Nat) (resp : HttpResponse) (e : GoError)
    (h200 : resp.statusCode = 200)
    (hcl : resp.contentLength ≤ (MaxHttpDownloadSize : Int))
    (hre : resp.readErr = some e) :
    sign um digest (.response resp) = .error e ∧
    (errorsAsRetryable e = false → osIsTimeout e = false →
      classifyAttempt (sign um digest (.response resp)) = .error (.permanent e)) := by
  have hs := sign_read_err um digest resp e h200 hcl hre
  refine ⟨hs, ?_⟩
  intro h1 h2
  rw [hs]
  simp [classifyAttempt, h1, h2]

/-- C9 witness: an empty 200 response body, where the single read reports
end-of-stream, fails with that error, classified Permanent. -/
theorem c9_witness :
    sign (fun _ => .ok .mk) (List.replicate 32 0)
        (.response { statusCode := 200, contentLength := 0, body := [], readErr := some (.genericErr "EOF") }) =
      .error (.genericErr "EOF") ∧
    classifyAttempt (sign (fun _ => .ok .mk) (List.replicate 32 0)
        (.response { statusCode := 200, contentLength := 0, body := [], readErr := some (.genericErr "EOF") })) =
      .error (.permanent (.genericErr "EOF")) := by
  have h := c9_read_error (fun _ => .ok .mk) (List.replicate 32 0)
    { statusCode := 200, contentLength := 0, body := [], readErr := some (.genericErr "EOF") }
    (.genericErr "EOF") rfl (by decide) rfl
  exact ⟨h.1, h.2 rfl rfl⟩

/-- C10: serializing the single-string-field request payload always succeeds
(json.Marshal cannot fail on this type), so the request-serialization error
branch in the attempt function is unreachable: for every digest the attempt
reaches the transport call, and a transport error is returned exactly. -/
theorem c10_marshal_total (p : payload)
    (um : List Nat → Except GoError SignedTimeStamp)
    (digest : List Nat) (e : GoError) :
    (∃ bs : List Nat, jsonMarshal p = .ok bs) ∧
    (∀ err : GoError, jsonMarshal (requestPayload digest) ≠ .error err) ∧
    sign um digest (.transportErr e) = .error e :=
  ⟨⟨_, rfl⟩, fun _ hc => Except.noConfusion hc, rfl⟩

end Tssig
